import Mathlib

/-!
Verification of the natural-language specification of the `exa` repository
(exa/core/data.py and the line-oriented Editor described by the spec and
exercised by exa/core/tests/test_editor.py) against a shallow embedding of
the code in Lean 4.

The embedding models Python values by the inductive `PyVal`, keyword
argument dictionaries by association lists, and raised exceptions by
`Except PyError`.
-/

namespace Exa

/-- A model of the Python values that flow through the code under study:
`None`, booleans, integers, strings, lists and string-keyed dictionaries. -/
inductive PyVal where
  | none
  | bool (b : Bool)
  | int (n : Int)
  | str (s : String)
  | list (l : List PyVal)
  | dict (d : List (String × PyVal))

/-- The Python exception kinds relevant to the claims: `TypeError`
(unsupported argument type or wrong call arity) and `NameError`
(reference to an undefined name). -/
inductive PyError where
  | typeError
  | nameError
deriving DecidableEq

/-- A Python keyword-argument dictionary, modelled as an association list
with at most one entry per key (Python dict keys are unique). -/
abbrev Kwargs := List (String × PyVal)

/-- Python `dict.pop(key, default)`: return the value stored under `key`
(or `default` when absent) together with the dictionary with that key
removed. -/
def pop (kwargs : Kwargs) (key : String) (dflt : PyVal) : PyVal × Kwargs :=
  match kwargs with
  | [] => (dflt, [])
  | (k, v) :: rest =>
    if k = key then (v, rest)
    else
      let r := pop rest key dflt
      (r.1, (k, v) :: r.2)

/-- The attribute state that `Frame.__init__` (src/exa/core/data.py,
lines 60-78) establishes on a new `Frame`, together with the keyword
arguments left over after the five `kwargs.pop` calls; those leftovers are
forwarded to the base-class (`pandas.DataFrame`) constructor by
`super(Frame, self).__init__(*args, **kwargs)`. -/
structure Frame where
  uid : PyVal
  meta : PyVal
  name : PyVal
  dimensions : PyVal
  units : PyVal
  superKwargs : Kwargs

/-- `Frame.__init__` from src/exa/core/data.py lines 60-78, transcribed
pop by pop.  Note line 72 of the source reads
`units = kwargs.pop("dimensions", None)`: it pops the key `"dimensions"`
a second time (not `"units"`), so it is transcribed here exactly so. -/
def Frame.init (kwargs : Kwargs) : Frame :=
  let p1 := pop kwargs "uid" .none
  let p2 := pop p1.2 "meta" .none
  let p3 := pop p2.2 "name" .none
  let p4 := pop p3.2 "dimensions" .none
  let p5 := pop p4.2 "dimensions" .none
  { uid := p1.1, meta := p2.1, name := p3.1, dimensions := p4.1,
    units := p5.1, superKwargs := p5.2 }

/-- The names defined at module scope in src/exa/core/data.py when the
module has finished loading: the imports (`six`, `pd`, `np`, `ABCBase`,
`ABCBaseMeta`) and the four class statements.  `FrameData` is not among
them. -/
def data_module_globals : List String :=
  ["six", "pd", "np", "ABCBase", "ABCBaseMeta",
   "_Frame", "Frame", "Field", "FieldCollection"]

/-- Python name resolution for a global name of the data module: `some ()`
when the name is defined, `none` when looking it up raises `NameError`. -/
def lookupGlobal (n : String) : Option Unit :=
  if n ∈ data_module_globals then some () else none

/-- `Frame.copy` from src/exa/core/data.py lines 55-58.  Its body first
evaluates the global name `FrameData` (in `super(FrameData, self)`); when
that name is undefined the call raises `NameError` before anything else
happens.  The `args`/`kwargs` parameters are accepted and, like in the
source, never reached when the name lookup fails. -/
def Frame.copy (self : Frame) (_args : List PyVal) (_kwargs : Kwargs) :
    Except PyError Frame :=
  match lookupGlobal "FrameData" with
  | Option.none => .error .nameError
  | some _ => .ok self

/-- The attribute state of a `FieldCollection`
(src/exa/core/data.py, lines 99-125): the base-class constructor is called
with the keyword arguments `name`, `uid` and `meta`. -/
structure FieldCollection where
  name : PyVal
  uid : PyVal
  meta : PyVal

/-- `FieldCollection.add_field` from src/exa/core/data.py lines 106-120:
its body is `pass`, so it returns `None` and leaves the collection
unchanged. -/
def FieldCollection.add_field (self : FieldCollection)
    (fn params values : PyVal) : FieldCollection × PyVal :=
  let _ := fn
  let _ := params
  let _ := values
  (self, PyVal.none)

/-- A Python-level call of the bound method `add_field` with an explicit
positional argument list.  `add_field` declares exactly three required
parameters besides `self` (src/exa/core/data.py line 106), so a call with
any other number of arguments raises `TypeError` before the body runs. -/
def call_add_field (self : FieldCollection) (args : List PyVal) :
    Except PyError (FieldCollection × PyVal) :=
  match args with
  | [fn, params, values] => .ok (self.add_field fn params values)
  | _ => .error .typeError

/-- `FieldCollection.__init__` from src/exa/core/data.py lines 122-125:
it forwards `name`, `uid`, `meta` to the base class and then, for each
positional field argument, calls `self.add_field(field)` with a single
argument. -/
def FieldCollection.init (name uid meta : PyVal) (fields : List PyVal) :
    Except PyError FieldCollection :=
  let self : FieldCollection := ⟨name, uid, meta⟩
  fields.foldlM (fun s f => do
    let r ← call_add_field s [f]
    pure r.1) self

/-- Modelled from the spec: helper for the Editor (exa/core/editor.py is
absent from src, only its tests are).  Splits a character sequence into
lines at newline characters; a text with no newline is a single line, and
each newline separates two lines.  The result is never empty. -/
def splitLines : List Char → List (List Char)
  | [] => [[]]
  | c :: rest =>
    match splitLines rest with
    | [] => [[]]
    | l :: ls => if c = '\n' then [] :: l :: ls else (c :: l) :: ls

/-- Modelled from the spec: the inverse of `splitLines`, "lines joined by
newline". -/
def joinLines : List (List Char) → List Char
  | [] => []
  | l :: ls =>
    match ls with
    | [] => l
    | _ :: _ => l ++ '\n' :: joinLines ls

/-- Modelled from the spec: the Editor of exa/core/editor.py, absent from
src (only its tests are present) — "an in-memory ordered sequence of text
lines". -/
structure Editor where
  lines : List String
deriving DecidableEq

/-- Modelled from the spec: construction of an Editor from a raw string
source, splitting the text into its lines. -/
def Editor.fromString (text : String) : Editor :=
  ⟨(splitLines text.data).map (fun l => String.mk l)⟩

/-- Modelled from the spec: "String conversion joins all lines with
newlines". -/
def Editor.toString (e : Editor) : String :=
  String.mk (joinLines (e.lines.map String.data))

/-- Modelled from the spec: "Length equals the number of lines". -/
def Editor.length (e : Editor) : Nat :=
  e.lines.length

/-- Modelled from the spec: "the number of lines in that text", the line
count of a raw text. -/
def numLines (text : String) : Nat :=
  (splitLines text.data).length

/-- Modelled from the spec: the kinds of source object the Editor
constructor accepts "polymorphically: a filesystem path (optionally gzip-
or bzip2-compressed, detected by extension), a readable stream, a raw
string, a pre-split sequence of lines, or another Editor instance
(deep-copied)", plus the unsupported kinds (a class/type value such as
`Editor` itself, or any other object).  Path and stream sources carry the
text they provide. -/
inductive Source where
  | path (content : String)
  | stream (content : String)
  | text (s : String)
  | lineList (ls : List String)
  | editor (e : Editor)
  | typeObj (className : String)
  | other

/-- Modelled from the spec: the Editor constructor.  It "fails with a type
error when given an unsupported source kind (e.g., a class object)";
supported kinds yield the line sequence of the provided text (an Editor
source is deep-copied, which for this value model is the value itself). -/
def Editor.construct : Source → Except PyError Editor
  | .path content => .ok (Editor.fromString content)
  | .stream content => .ok (Editor.fromString content)
  | .text s => .ok (Editor.fromString s)
  | .lineList ls => .ok ⟨ls⟩
  | .editor e => .ok ⟨e.lines⟩
  | .typeObj _ => .error .typeError
  | .other => .error .typeError

/-- Modelled from the spec: substitution of named placeholders such as
`\x7bname\x7d` in one line by the supplied keyword values. -/
def substLine (subs : List (String × String)) (line : String) : String :=
  subs.foldl (fun acc kv => acc.replace ("\x7b" ++ kv.1 ++ "\x7d") kv.2) line

/-- Modelled from the spec: `format` "substitutes named placeholders
embedded in the text with supplied keyword values; by default returns a
new Editor leaving the original unchanged, but an in-place mode mutates
the original and, in that mode, returns the same instance (not a copy)";
"called with no arguments it returns the original instance unchanged
(identity-preserving no-op)".  The result pairs the returned editor with a
flag that is `true` exactly when the returned object is the same instance
as the receiver. -/
def Editor.format (e : Editor) (subs : List (String × String))
    (inplace : Bool) : Editor × Bool :=
  if subs.isEmpty then (e, true)
  else if inplace then (⟨e.lines.map (substLine subs)⟩, true)
  else (⟨e.lines.map (substLine subs)⟩, false)

/-- Modelled from the spec: "A single match: line number (integer,
zero-based) plus the full text of that line" (the `Match` of the tests,
with fields `num` and `text`). -/
structure Match where
  num : Nat
  text : String
deriving DecidableEq

/-- Modelled from the spec: "A named group of matches for one search
pattern: the pattern string plus an ordered, appendable collection of
single matches" (the `Matches` of the tests). -/
structure Matches where
  pattern : String
  entries : List Match
deriving DecidableEq

/-- Modelled from the spec: "A found-result: an ordered collection of
named match groups, one per searched pattern" (the `Found` of the
tests). -/
structure Found where
  groups : List Matches
deriving DecidableEq

/-- Modelled from the spec: the length of a found-result is the number of
match groups. -/
def Found.length (f : Found) : Nat :=
  f.groups.length

/-- Modelled from the spec: the length of a match group is its number of
recorded matches. -/
def Matches.length (m : Matches) : Nat :=
  m.entries.length

/-- Python's substring test `pat in line` for strings: `pat` occurs
contiguously inside `line`. -/
def containsSub (pat line : String) : Bool :=
  decide (pat.data <:+: line.data)

/-- Modelled from the spec: `find` "searches every line for occurrences of
one or more target substrings; returns a collection keyed by pattern, each
holding the set of matching lines together with their zero-based line
numbers, in line order", one group per pattern in the order given, a
pattern with no matching line keeping an empty group. -/
def Editor.find (e : Editor) (ps : List String) : Found :=
  ⟨ps.map (fun p =>
    ⟨p, (e.lines.enum.map (fun ia => Match.mk ia.1 ia.2)).filter
          (fun m => containsSub p m.text)⟩)⟩

/-- Modelled from the spec: "Index access by integer returns a single-line
Editor"; an out-of-range index propagates an index error, modelled by
`none`. -/
def Editor.getItem (e : Editor) (i : Nat) : Option Editor :=
  if h : i < e.lines.length then some ⟨[e.lines.get ⟨i, h⟩]⟩ else Option.none

/-- Modelled from the spec: index access "by a pair of integers returns a
multi-line slice as an Editor", the contiguous lines from `i` through `j`
inclusive in their original order. -/
def Editor.getPair (e : Editor) (i j : Nat) : Editor :=
  ⟨(e.lines.drop i).take (j + 1 - i)⟩

/-- Modelled from the spec: "Containment check (`in`) tests whether a
given string is a substring of any line (not equality against a line);
passing a non-string is not an error but returns false". -/
def Editor.contains (e : Editor) (v : PyVal) : Bool :=
  match v with
  | .str s => e.lines.any (fun l => containsSub s l)
  | _ => false

theorem splitLines_ne_nil (cs : List Char) : splitLines cs ≠ [] := by
  cases cs with
  | nil => simp [splitLines]
  | cons c rest =>
    unfold splitLines
    cases h : splitLines rest with
    | nil => simp
    | cons l ls =>
      dsimp only
      split <;> simp

theorem joinLines_splitLines (cs : List Char) :
    joinLines (splitLines cs) = cs := by
  induction cs with
  | nil => rfl
  | cons c rest ih =>
    unfold splitLines
    cases h : splitLines rest with
    | nil => exact absurd h (splitLines_ne_nil rest)
    | cons l ls =>
      rw [h] at ih
      dsimp only
      by_cases hc : c = '\n'
      · subst hc
        rw [if_pos rfl]
        show '\n' :: joinLines (l :: ls) = '\n' :: rest
        rw [ih]
      · rw [if_neg hc]
        cases ls with
        | nil =>
          show c :: l = c :: rest
          rw [show l = joinLines [l] from rfl, ih]
        | cons m ms =>
          show (c :: l) ++ '\n' :: joinLines (m :: ms) = c :: rest
          rw [show (c :: l) ++ '\n' :: joinLines (m :: ms)
              = c :: joinLines (l :: m :: ms) from rfl, ih]

/-- C2: an Editor constructed from a text source and not yet mutated
converts back to exactly the original source text (its lines joined with
newlines), and its length equals the number of lines in that text. -/
theorem editor_str_len (t : String) :
    Editor.construct (Source.text t) = Except.ok (Editor.fromString t) ∧
    (Editor.fromString t).toString = t ∧
    (Editor.fromString t).length = numLines t := by
  refine ⟨rfl, ?_, ?_⟩
  · show String.mk
      (joinLines (((splitLines t.data).map (fun l => String.mk l)).map
        String.data)) = t
    rw [List.map_map]
    rw [show ((String.data ∘ fun l => String.mk l)) = id from rfl]
    rw [List.map_id, joinLines_splitLines]
  · simp [Editor.length, Editor.fromString, numLines]

/-- C1: the claim states that `Frame` construction with keyword arguments
uid, meta, name, dimensions and units succeeds with every attribute equal
to the supplied value.  In the code, line 72 of src/exa/core/data.py pops
the key "dimensions" a second time instead of "units", so the `units`
attribute is always `None` and the supplied "units" keyword argument is
left over and forwarded to the `pandas.DataFrame` constructor.  This
theorem evaluates the transcribed constructor at such a keyword
dictionary. -/
theorem frame_init_units_bug :
    (Frame.init [("uid", PyVal.int 1), ("meta", PyVal.dict []),
      ("name", PyVal.str "n"), ("dimensions", PyVal.list [PyVal.str "x"]),
      ("units", PyVal.dict [("x", PyVal.str "m")])]).units = PyVal.none ∧
    (Frame.init [("uid", PyVal.int 1), ("meta", PyVal.dict []),
      ("name", PyVal.str "n"), ("dimensions", PyVal.list [PyVal.str "x"]),
      ("units", PyVal.dict [("x", PyVal.str "m")])]).superKwargs
      = [("units", PyVal.dict [("x", PyVal.str "m")])] ∧
    (Frame.init [("uid", PyVal.int 1), ("meta", PyVal.dict []),
      ("name", PyVal.str "n"), ("dimensions", PyVal.list [PyVal.str "x"]),
      ("units", PyVal.dict [("x", PyVal.str "m")])]).dimensions
      = PyVal.list [PyVal.str "x"] := by
  refine ⟨?_, ?_, ?_⟩ <;> rfl

/-- C3: constructing an Editor from an unsupported source object (for
example a class/type value) yields a type error at construction time. -/
theorem editor_construct_type_error (className : String) :
    Editor.construct (Source.typeObj className)
      = Except.error PyError.typeError ∧
    Editor.construct Source.other = Except.error PyError.typeError :=
  ⟨rfl, rfl⟩

/-- C4: calling `format` with no substitution arguments returns the very
same Editor instance (the same-instance flag is true) and leaves its line
content unchanged, whatever the in-place mode. -/
theorem editor_format_noop (e : Editor) (inplace : Bool) :
    e.format [] inplace = (e, true) :=
  rfl

/-- C8: `FieldCollection.add_field` returns `None` and leaves the
collection's state unchanged, for every argument triple. -/
theorem add_field_noop (fc : FieldCollection) (fn params values : PyVal) :
    fc.add_field fn params values = (fc, PyVal.none) :=
  rfl

/-- C9: constructing a `FieldCollection` with no positional field
arguments succeeds, while constructing one with one or more positional
field arguments raises a type error, because the constructor calls
`add_field` with a single argument where three are required. -/
theorem field_collection_init_spec (name uid meta : PyVal) :
    FieldCollection.init name uid meta []
      = Except.ok ⟨name, uid, meta⟩ ∧
    ∀ f fs, FieldCollection.init name uid meta (f :: fs)
      = Except.error PyError.typeError :=
  ⟨rfl, fun _ _ => rfl⟩

/-- C10: calling `Frame.copy` on any frame with any arguments raises a
name error, because its body refers to the global name `FrameData`, which
src/exa/core/data.py never defines. -/
theorem frame_copy_name_error (f : Frame) (args : List PyVal)
    (kwargs : Kwargs) :
    f.copy args kwargs = Except.error PyError.nameError :=
  rfl

theorem pairwise_fst_lt_enumFrom {α : Type} (l : List α) (n : Nat) :
    (l.enumFrom n).Pairwise (fun a b => a.1 < b.1) := by
  induction l generalizing n with
  | nil => simp
  | cons x xs ih =>
    rw [List.enumFrom_cons]
    refine List.Pairwise.cons ?_ (ih (n + 1))
    intro y hy
    have := List.le_fst_of_mem_enumFrom hy
    omega

/-- C5: `find` with N pattern strings returns a found-result of length N,
one match group per pattern in the order given; the group of a pattern
records a (zero-based line number, line text) entry exactly for the lines
containing that pattern, in line order, and a pattern with no matching
line is still present as a group with zero entries. -/
theorem editor_find_spec (e : Editor) (ps : List String) :
    (e.find ps).length = ps.length ∧
    ∀ k (hk : k < ps.length),
      ∃ g, (e.find ps).groups[k]? = some g ∧
        g.pattern = ps.get ⟨k, hk⟩ ∧
        (∀ m : Match, m ∈ g.entries ↔
          ((∃ h : m.num < e.lines.length,
              m.text = e.lines.get ⟨m.num, h⟩) ∧
            containsSub (ps.get ⟨k, hk⟩) m.text = true)) ∧
        g.entries.Pairwise (fun a b => a.num < b.num) ∧
        ((∀ l ∈ e.lines, containsSub (ps.get ⟨k, hk⟩) l = false) →
          g.entries = []) := by
  constructor
  · simp [Editor.find, Found.length]
  · intro k hk
    refine ⟨⟨ps.get ⟨k, hk⟩,
      (e.lines.enum.map (fun ia => Match.mk ia.1 ia.2)).filter
        (fun m => containsSub (ps.get ⟨k, hk⟩) m.text)⟩,
      ?_, rfl, ?_, ?_, ?_⟩
    · simp [Editor.find, List.getElem?_map, List.getElem?_eq_getElem hk]
    · intro m
      rw [List.mem_filter]
      constructor
      · rintro ⟨hmem, hpred⟩
        rw [List.mem_map] at hmem
        obtain ⟨ia, hia, hm⟩ := hmem
        subst hm
        rw [List.mem_enum_iff_getElem?] at hia
        obtain ⟨hlt, hget⟩ := List.getElem?_eq_some.mp hia
        exact ⟨⟨hlt, by simpa using hget.symm⟩, hpred⟩
      · rintro ⟨⟨hlt, htext⟩, hpred⟩
        refine ⟨?_, hpred⟩
        rw [List.mem_map]
        refine ⟨(m.num, m.text), ?_, rfl⟩
        rw [List.mem_enum_iff_getElem?]
        show e.lines[m.num]? = some m.text
        rw [List.getElem?_eq_getElem hlt]
        exact congrArg some (by simpa using htext.symm)
    · refine List.Pairwise.sublist (List.filter_sublist _) ?_
      rw [List.pairwise_map]
      exact pairwise_fst_lt_enumFrom e.lines 0
    · intro hnone
      rw [List.filter_eq_nil_iff]
      intro m hm
      rw [List.mem_map] at hm
      obtain ⟨ia, hia, hm⟩ := hm
      subst hm
      have hsnd : ia.2 ∈ e.lines := List.snd_mem_of_mem_enum hia
      simp only [Bool.not_eq_true]
      exact hnone ia.2 hsnd

/-- Witness for C5: the property instantiated at a concrete two-line
editor and the pattern list ["text", "stuff"] at pattern position 0. -/
theorem editor_find_spec_witness :
    ((Editor.fromString "some text\nmore text").find
      ["text", "stuff"]).length = 2 ∧
    ∃ g, ((Editor.fromString "some text\nmore text").find
        ["text", "stuff"]).groups[0]? = some g ∧
      g.pattern = (["text", "stuff"] : List String).get ⟨0, by decide⟩ :=
  ⟨(editor_find_spec (Editor.fromString "some text\nmore text")
      ["text", "stuff"]).1,
    match (editor_find_spec (Editor.fromString "some text\nmore text")
        ["text", "stuff"]).2 0 (by decide) with
    | ⟨g, hget, hpat, _, _, _⟩ => ⟨g, hget, hpat⟩⟩

/-- C6: indexing with a single in-range integer `i` yields an Editor whose
sole line is line `i`, and indexing with a pair `(i, j)` with
`i ≤ j < length` yields an Editor holding exactly the contiguous lines
from `i` through `j` inclusive, in their original order. -/
theorem editor_getitem_spec (e : Editor) (i j : Nat) (hij : i ≤ j)
    (hj : j < e.lines.length) :
    (∃ h : i < e.lines.length,
      e.getItem i = some ⟨[e.lines.get ⟨i, h⟩]⟩) ∧
    (e.getPair i j).lines.length = j + 1 - i ∧
    ∀ k, k < j + 1 - i →
      (e.getPair i j).lines[k]? = e.lines[i + k]? := by
  have hi : i < e.lines.length := lt_of_le_of_lt hij hj
  refine ⟨⟨hi, ?_⟩, ?_, ?_⟩
  · simp [Editor.getItem, hi]
  · simp only [Editor.getPair, List.length_take, List.length_drop]
    omega
  · intro k hk
    simp only [Editor.getPair]
    rw [List.getElem?_take_of_lt hk, List.getElem?_drop]

/-- Witness for C6: the property instantiated at a concrete three-line
editor with the index pair (0, 1). -/
theorem editor_getitem_spec_witness :
    (0 : Nat) ≤ 1 ∧ 1 < (Editor.fromString "a\nb\nc").lines.length ∧
    ((Editor.fromString "a\nb\nc").getPair 0 1).lines.length = 1 + 1 - 0 ∧
    ((Editor.fromString "a\nb\nc").getPair 0 1).lines[0]?
      = (Editor.fromString "a\nb\nc").lines[0 + 0]? :=
  ⟨by decide, by decide,
    (editor_getitem_spec (Editor.fromString "a\nb\nc") 0 1 (by decide)
      (by decide)).2.1,
    (editor_getitem_spec (Editor.fromString "a\nb\nc") 0 1 (by decide)
      (by decide)).2.2 0 (by decide)⟩

/-- C7: the containment check with a string probe is true iff at least one
line holds it as a literal contiguous substring, and the check with any
non-string probe value returns false rather than raising. -/
theorem editor_contains_spec (e : Editor) (s : String) (v : PyVal)
    (hv : ∀ t, v ≠ PyVal.str t) :
    (e.contains (PyVal.str s) = true ↔
      ∃ l ∈ e.lines, s.data <:+: l.data) ∧
    e.contains v = false := by
  constructor
  · simp [Editor.contains, containsSub]
  · cases v with
    | str t => exact absurd rfl (hv t)
    | none => rfl
    | bool b => rfl
    | int n => rfl
    | list l => rfl
    | dict d => rfl

/-- Witness for C7: the containment property instantiated at a concrete
one-line editor, a matching string probe, and the non-string probe `0`. -/
theorem editor_contains_spec_witness :
    (Editor.fromString "Example text").contains (PyVal.str "text") = true ∧
    (Editor.fromString "Example text").contains (PyVal.int 0) = false := by
  have h := editor_contains_spec (Editor.fromString "Example text") "text"
    (PyVal.int 0) (fun t ht => PyVal.noConfusion ht)
  exact ⟨h.1.mpr (by decide), h.2⟩

end Exa
